import Mathlib

/-!
Shallow embedding of the l_banner repository's banner timing and layout
geometry core (src/main.js and the LBannerAnalytics module), with proofs of
the specification's claims about it.

Numbers (playback times, pixel coordinates, shell dimensions) are modelled
as rationals; JS object fields that may be `undefined`/`null` are modelled
as `Option`.
-/

/-- A banner's timing window, from `configuration.timing` in a parsed
VSAT banner.  Either offset may be absent. -/
structure Timing where
  startOffset : Option ℚ
  endOffset : Option ℚ
deriving Repr, DecidableEq

/-- A layout segment.  `x`/`y` are absent for legacy relative segments
(the code's guard is `segment.x !== undefined && segment.y !== undefined`);
`type` is an optional "vertical"/"horizontal" tag and `position` an
optional "left"/"right"/"top"/"bottom" hint. -/
structure Segment where
  id : String
  x : Option ℚ
  y : Option ℚ
  width : ℚ
  height : ℚ
  type : Option String
  position : Option String
deriving Repr, DecidableEq

/-- A banner layout: `configuration.layout`. -/
structure Layout where
  position : Option String
  segments : List Segment
deriving Repr, DecidableEq

/-- A content element: `configuration.content.elements[i]`, bound to a
segment of the same banner via `segmentId`. -/
structure Element where
  id : String
  segmentId : String
deriving Repr, DecidableEq

/-- A parsed banner (`parsedBanners[key]`), keeping the fields the timing
and rendering code reads. -/
structure Banner where
  timing : Option Timing
  layout : Layout
  elements : List Element
  showCloseButton : Bool
deriving Repr, DecidableEq

/-- The keyed banner collection `parsedBanners`, in iteration
(insertion) order. -/
abbrev Banners := List (String × Banner)

/-- The timing-window test used inside `findBannerForTime`
(src/main.js:303-310): both offsets non-null and
`startOffset <= t < endOffset`. -/
def inTimingWindow (t : ℚ) (banner : Banner) : Bool :=
  match banner.timing with
  | none => false
  | some timing =>
    match timing.startOffset, timing.endOffset with
    | some s, some e => decide (s ≤ t) && decide (t < e)
    | _, _ => false

/-- Transliteration of `findBannerForTime` (src/main.js:298-316): scan the
banner collection in iteration order and return the first banner whose
window contains the time, or `(null, null)`. -/
def findBannerForTime (t : ℚ) : Banners → Option String × Option Banner
  | [] => (none, none)
  | (key, banner) :: rest =>
    if inTimingWindow t banner then (some key, some banner)
    else findBannerForTime t rest

/-- Transliteration of `getBannerData` (src/main.js:173-179): a truthy key
that is present returns the stored banner, otherwise the first banner in
the collection, or `null` when the collection is empty. -/
def getBannerData (banners : Banners) (bannerKey : Option String) : Option Banner :=
  match bannerKey with
  | some key =>
    if key ≠ "" then
      match banners.lookup key with
      | some b => some b
      | none => (banners.head?).map Prod.snd
    else (banners.head?).map Prod.snd
  | none => (banners.head?).map Prod.snd

/-- The four-edge offset vector computed by `applyVideoOffsets`
(`{ left: 0, right: 0, top: 0, bottom: 0 }`). -/
structure Offsets where
  left : ℚ
  right : ℚ
  top : ℚ
  bottom : ℚ
deriving Repr, DecidableEq

/-- Vertical classification in `applyVideoOffsets`
(src/unnamed/part_000:1388): declared type "vertical", or type not
"horizontal" and height strictly greater than width. -/
def avoIsVertical (ty : Option String) (width height : ℚ) : Bool :=
  ty == some "vertical" || (!(ty == some "horizontal") && decide (height > width))

/-- Horizontal classification in `applyVideoOffsets`
(src/unnamed/part_000:1389). -/
def avoIsHorizontal (ty : Option String) (width height : ℚ) : Bool :=
  ty == some "horizontal" || (!(ty == some "vertical") && decide (width > height))

/-- Left-edge classification in `applyVideoOffsets`
(src/unnamed/part_000:1391): position hint "left" or x equal to zero. -/
def avoIsLeftEdge (hint : Option String) (x : ℚ) : Bool :=
  hint == some "left" || x == 0

/-- Right-edge classification in `applyVideoOffsets`
(src/unnamed/part_000:1392-1394). -/
def avoIsRightEdge (hint : Option String) (x width shellWidth : ℚ) : Bool :=
  hint == some "right" ||
    (!(avoIsLeftEdge hint x) && decide (x + width ≥ shellWidth - 1))

/-- Bottom classification in `applyVideoOffsets`
(src/unnamed/part_000:1396-1397): position hint "bottom", or
horizontal-classified with y beyond half the shell height. -/
def avoIsBottomSegment (ty hint : Option String) (y width height shellHeight : ℚ) : Bool :=
  hint == some "bottom" ||
    (avoIsHorizontal ty width height && decide (y > shellHeight / 2))

/-- Left-edge classification in `positionSegment`
(src/unnamed/part_000:1545): x equal to zero or position hint "left". -/
def posIsLeftEdge (hint : Option String) (x : ℚ) : Bool :=
  x == 0 || hint == some "left"

/-- Right-edge classification in `positionSegment`
(src/unnamed/part_000:1546-1548). -/
def posIsRightEdge (hint : Option String) (x width shellWidth : ℚ) : Bool :=
  hint == some "right" ||
    (!(posIsLeftEdge hint x) && decide (x + width ≥ shellWidth - 1))

/-- Vertical classification in `positionSegment`
(src/unnamed/part_000:1549): unlike `applyVideoOffsets`, no guard against
an explicit "horizontal" type. -/
def posIsVertical (ty : Option String) (width height : ℚ) : Bool :=
  ty == some "vertical" || decide (height > width)

/-- Horizontal classification in `positionSegment`
(src/unnamed/part_000:1550). -/
def posIsHorizontal (ty : Option String) (width height : ℚ) : Bool :=
  ty == some "horizontal" || decide (width > height)

/-- Bottom classification in `positionSegment`
(src/unnamed/part_000:1555-1557): position hint "bottom", or
horizontal-classified with original y beyond the fixed 400px threshold. -/
def posIsBottomSegment (ty hint : Option String) (y width height : ℚ) : Bool :=
  hint == some "bottom" || (posIsHorizontal ty width height && decide (y > 400))

/-- Contribution of one segment to the offset vector: the body of the
`layout.segments.forEach` callback in `applyVideoOffsets`
(src/unnamed/part_000:1376-1433).  A segment with absolute coordinates
takes the classification branches; otherwise the legacy relative branch
contributes its height (top/bottom) or width (left/right), and an
unrecognized position contributes nothing. -/
def offsetStep (shellWidth shellHeight : ℚ) (off : Offsets) (seg : Segment) : Offsets :=
  match seg.x, seg.y with
  | some x, some y =>
    let off1 :=
      if avoIsVertical seg.type seg.width seg.height then
        if avoIsLeftEdge seg.position x then
          { off with left := max off.left seg.width }
        else
          { off with right := max off.right seg.width }
      else off
    if avoIsHorizontal seg.type seg.width seg.height then
      if avoIsBottomSegment seg.type seg.position y seg.width seg.height shellHeight then
        { off1 with bottom := max off1.bottom seg.height }
      else
        { off1 with top := max off1.top (y + seg.height) }
    else off1
  | _, _ =>
    match seg.position with
    | some "left" => { off with left := max off.left seg.width }
    | some "right" => { off with right := max off.right seg.width }
    | some "top" => { off with top := max off.top seg.height }
    | some "bottom" => { off with bottom := max off.bottom seg.height }
    | _ => off

/-- Transliteration of `applyVideoOffsets` (src/unnamed/part_000:1370-1433,
the offset computation): fold the per-segment contribution over the layout
starting from the zero offset vector. -/
def applyVideoOffsets (shellWidth shellHeight : ℚ) (segments : List Segment) : Offsets :=
  segments.foldl (offsetStep shellWidth shellHeight) ⟨0, 0, 0, 0⟩

/-- An absolute-coordinate segment with the given geometry, type tag and
position hint. -/
def singleSegment (x y w h : ℚ) (ty hint : Option String) : Segment :=
  { id := "s", x := some x, y := some y, width := w, height := h
    type := ty, position := hint }

/-- The square, type-unset, hint-free absolute segment used to test the
claim that ambiguous segments contribute to both axes. -/
def squareSegment : Segment :=
  { id := "sq", x := some 0, y := some 0, width := 100, height := 100
    type := none, position := none }

/-- The DOM state the render adapter owns: the banner host's children
(one entry per attached `.lb-segment` node, recorded as the element it was
built from), the four offset custom properties on the player shell (pixel
values), whether the resize/fullscreen listeners are attached, and whether
a close button is attached. -/
structure DomState where
  hostChildren : List Element
  leftWidth : ℚ
  rightWidth : ℚ
  topHeight : ℚ
  bottomHeight : ℚ
  resizeListeners : Bool
  closeButton : Bool
deriving Repr, DecidableEq

/-- Transliteration of `cleanupExisting` (src/unnamed/part_000:1197-1237):
remove the resize/fullscreen listeners; clear the host children
immediately when `immediate`, otherwise (when children exist) schedule the
clearing behind the 1s exit-animation timer (returned as a pending flag);
reset the four offset properties to 0px and remove the close button. -/
def cleanupExisting (immediate : Bool) (s : DomState) : DomState × Bool :=
  let s1 := { s with resizeListeners := false }
  let cleared :=
    if immediate then ({ s1 with hostChildren := [] }, false)
    else if s1.hostChildren ≠ [] then (s1, true)
    else ({ s1 with hostChildren := [] }, false)
  ({ cleared.1 with
      leftWidth := 0, rightWidth := 0, topHeight := 0, bottomHeight := 0,
      closeButton := false },
    cleared.2)

/-- Runs the exit-animation timer scheduled by a non-immediate cleanup
(src/unnamed/part_000:1216-1220): its callback replaces the host children
with none.  Identity when no timer is pending. -/
def settleCleanup : DomState × Bool → DomState
  | (s, true) => { s with hostChildren := [] }
  | (s, false) => s

/-- The children attached by the element loop of `renderBanner`
(src/unnamed/part_000:1332-1341): each element whose `segmentId` resolves
in the banner's own layout is appended; an element referencing a missing
segment id is skipped with a diagnostic. -/
def renderChildren (layout : Layout) (elements : List Element) : List Element :=
  elements.foldl
    (fun acc e =>
      if layout.segments.any (fun seg => seg.id == e.segmentId) then acc ++ [e]
      else acc)
    []

/-- Transliteration of `renderBanner` (src/unnamed/part_000:1272-1362) on
the DOM state: immediate cleanup of the previous banner, apply the video
offsets for the layout, attach a node per resolvable content element,
attach the close button when configured, and attach the
resize/fullscreen listeners. -/
def renderBanner (shellWidth shellHeight : ℚ) (b : Banner) (s : DomState) : DomState :=
  let s1 := (cleanupExisting true s).1
  let off := applyVideoOffsets shellWidth shellHeight b.layout.segments
  { s1 with
      leftWidth := off.left, rightWidth := off.right,
      topHeight := off.top, bottomHeight := off.bottom,
      hostChildren := renderChildren b.layout b.elements,
      closeButton := b.showCloseButton,
      resizeListeners := true }

/-- Key-overwrite merge of freshly fetched banners into the live
collection (`Object.assign(parsedBanners, banners)`, src/main.js:602):
existing keys keep their position and take the fetched value; new keys
are appended in fetch order. -/
def mergeBanners (prior fetched : Banners) : Banners :=
  prior.map (fun p =>
    match fetched.lookup p.1 with
    | some b => (p.1, b)
    | none => p) ++
  fetched.filter (fun q => !(prior.any (fun p => p.1 == q.1)))

/-- The banner-availability gate of `initLBanner` (src/main.js:601-616):
after merging the fetched banners into the live collection, an empty
collection throws "No valid banners found in VAST XML" (so the banner
timing system is never installed); otherwise initialization proceeds
with the merged collection. -/
def initLBanner (prior fetched : Banners) : Except String Banners :=
  let merged := mergeBanners prior fetched
  if merged.isEmpty then Except.error "No valid banners found in VAST XML"
  else Except.ok merged

/-- Configuration read by `setupBannerTiming`: the
`CONFIG.SHOW_BANNERS_ON_PAUSE` flag and the loaded `parsedBanners`
collection. -/
structure TimingConfig where
  showBannersOnPause : Bool
  banners : Banners
deriving Repr, DecidableEq

/-- The mutable flags of `setupBannerTiming` (src/main.js:329-333):
`currentBannerKey`, `isPaused`, `isSeeking`, `pauseBannerActive`, plus
whether a seek-cooldown timer is pending (`seekCooldown !== null`). -/
structure TimingState where
  currentBannerKey : Option String
  isPaused : Bool
  isSeeking : Bool
  pauseBannerActive : Bool
  seekCooldownPending : Bool
deriving Repr, DecidableEq

/-- The state of `setupBannerTiming` when the closure is created. -/
def initialTimingState : TimingState :=
  { currentBannerKey := none, isPaused := false, isSeeking := false
    pauseBannerActive := false, seekCooldownPending := false }

/-- Events delivered to the handlers installed by `setupBannerTiming`:
the five player events plus the firing of the two scheduled timers (the
600ms seek cooldown and the 50ms play-resume delay).  Timer events carry
the video time read when they fire. -/
inductive PlayerEvent
  | seeking
  | seeked
  | seekCooldownFire (t : ℚ)
  | timeupdate (t : ℚ)
  | pause (t : ℚ)
  | play
  | playDelayFire (t : ℚ)
deriving Repr, DecidableEq

/-- Observable banner operations: `forceShowBanner` (a
`setBanner`+`show` pair against the analytics module) and
`forceHideBanner`. -/
inductive BannerOp
  | showOp (key : String)
  | hideOp
deriving Repr, DecidableEq

/-- Helper `getBannerForTime` inside `setupBannerTiming`
(src/main.js:354-358). -/
def getBannerForTime (banners : Banners) (t : ℚ) : Option (String × Banner) :=
  match findBannerForTime t banners with
  | (some k, some b) => some (k, b)
  | _ => none

/-- One step of the banner lifecycle controller: the event handlers
installed by `setupBannerTiming` (src/main.js:364-497), returning the
updated flags and the banner operations performed.  The `pause` and
`play` handlers exist only when `SHOW_BANNERS_ON_PAUSE` is set
(src/main.js:438); a timer event whose timer is not pending (cleared by a
later `seeking`) is a no-op; the play-resume callback re-checks the
pause/seek flags at fire time (src/main.js:482). -/
def stepTiming (cfg : TimingConfig) (s : TimingState) : PlayerEvent → TimingState × List BannerOp
  | .seeking =>
    let ops := if s.currentBannerKey ≠ none then [BannerOp.hideOp] else []
    ({ s with isSeeking := true, currentBannerKey := none,
              seekCooldownPending := false }, ops)
  | .seeked =>
    ({ s with seekCooldownPending := true }, [])
  | .seekCooldownFire t =>
    if s.seekCooldownPending then
      let s1 := { s with isSeeking := false, seekCooldownPending := false }
      if !s1.isPaused then
        match getBannerForTime cfg.banners t with
        | some (k, _) => ({ s1 with currentBannerKey := some k }, [BannerOp.showOp k])
        | none => ({ s1 with currentBannerKey := none }, [])
      else (s1, [])
    else (s, [])
  | .timeupdate t =>
    if s.isPaused || s.isSeeking || s.pauseBannerActive then (s, [])
    else
      match getBannerForTime cfg.banners t with
      | none =>
        if s.currentBannerKey ≠ none then
          ({ s with currentBannerKey := none }, [BannerOp.hideOp])
        else (s, [])
      | some (k, _) =>
        if some k ≠ s.currentBannerKey then
          ({ s with currentBannerKey := some k }, [BannerOp.showOp k])
        else (s, [])
  | .pause t =>
    if cfg.showBannersOnPause then
      let s1 := { s with isPaused := true, pauseBannerActive := true }
      match getBannerForTime cfg.banners t with
      | some (k, _) => ({ s1 with currentBannerKey := some k }, [BannerOp.showOp k])
      | none =>
        match getBannerData cfg.banners none with
        | some fb =>
          let fallbackKey :=
            ((cfg.banners.find? (fun p => p.2 == fb)).map Prod.fst).getD "fallback"
          ({ s1 with currentBannerKey := some fallbackKey },
            [BannerOp.showOp fallbackKey])
        | none => (s1, [])
    else (s, [])
  | .play =>
    if cfg.showBannersOnPause then
      ({ s with isPaused := false, pauseBannerActive := false }, [])
    else (s, [])
  | .playDelayFire t =>
    if cfg.showBannersOnPause then
      if !s.isPaused && !s.isSeeking then
        match getBannerForTime cfg.banners t with
        | some (k, _) => ({ s with currentBannerKey := some k }, [BannerOp.showOp k])
        | none => ({ s with currentBannerKey := none }, [BannerOp.hideOp])
      else (s, [])
    else (s, [])

/-- Run a sequence of player events through the controller, collecting
the banner operations performed in order. -/
def runTiming (cfg : TimingConfig) : TimingState → List PlayerEvent → TimingState × List BannerOp
  | s, [] => (s, [])
  | s, e :: rest =>
    let step := stepTiming cfg s e
    let tail := runTiming cfg step.1 rest
    (tail.1, step.2 ++ tail.2)

/-- A concrete banner with timing window `[5, 10)` and an empty layout. -/
def bannerA : Banner :=
  { timing := some { startOffset := some 5, endOffset := some 10 }
    layout := { position := some "left-bottom", segments := [] }
    elements := [], showCloseButton := false }

/-- A concrete banner with timing window `[10, 20)`. -/
def bannerB : Banner :=
  { timing := some { startOffset := some 10, endOffset := some 20 }
    layout := { position := some "right-bottom", segments := [] }
    elements := [], showCloseButton := true }

/-- Controller configuration with pause display enabled and the single
banner `bannerA` loaded under key "A". -/
def cfgSingle : TimingConfig :=
  { showBannersOnPause := true, banners := [("A", bannerA)] }

/-- Controller configuration with pause display enabled and two banners:
"A" with window `[5, 10)` and "B" with window `[10, 20)`. -/
def cfgPair : TimingConfig :=
  { showBannersOnPause := true, banners := [("A", bannerA), ("B", bannerB)] }

theorem findBannerForTime_eq_none (t : ℚ) (bs : Banners)
    (h : ∀ p ∈ bs, inTimingWindow t p.2 = false) :
    findBannerForTime t bs = (none, none) := by
  induction bs with
  | nil => rfl
  | cons p rest ih =>
    simp only [findBannerForTime, h p (List.mem_cons_self p rest)]
    exact ih fun q hq => h q (List.mem_cons_of_mem p hq)

theorem findBannerForTime_first (t : ℚ) (bs : Banners) (k : String) (b : Banner)
    (h : findBannerForTime t bs = (some k, some b)) :
    ∃ pre post, bs = pre ++ (k, b) :: post ∧
      inTimingWindow t b = true ∧
      ∀ p ∈ pre, inTimingWindow t p.2 = false := by
  induction bs with
  | nil => simp [findBannerForTime] at h
  | cons p rest ih =>
    by_cases hp : inTimingWindow t p.2 = true
    · refine ⟨[], rest, ?_, ?_, by simp⟩
      · obtain ⟨pk, pb⟩ := p
        simp only [findBannerForTime, hp, if_true] at h
        obtain ⟨hk, hb⟩ := Prod.mk.injEq _ _ _ _ ▸ h
        simp only [Option.some.injEq] at hk hb
        simp [← hk, ← hb]
      · obtain ⟨pk, pb⟩ := p
        simp only [findBannerForTime, hp, if_true] at h
        obtain ⟨hk, hb⟩ := Prod.mk.injEq _ _ _ _ ▸ h
        simp only [Option.some.injEq] at hb
        simpa [← hb] using hp
    · have hp' : inTimingWindow t p.2 = false := by
        simpa using hp
      obtain ⟨pk, pb⟩ := p
      simp only [findBannerForTime] at h
      rw [if_neg (by simpa using hp')] at h
      obtain ⟨pre, post, hsplit, hwin, hpre⟩ := ih h
      refine ⟨(pk, pb) :: pre, post, by simp [hsplit], hwin, ?_⟩
      intro q hq
      rcases List.mem_cons.mp hq with hq | hq
      · simpa [hq] using hp'
      · exact hpre q hq

theorem inTimingWindow_spec (t : ℚ) (b : Banner) (h : inTimingWindow t b = true) :
    ∃ tw sOff eOff, b.timing = some tw ∧ tw.startOffset = some sOff ∧
      tw.endOffset = some eOff ∧ sOff ≤ t ∧ t < eOff := by
  rcases b with ⟨timing, layout, elements, scb⟩
  rcases timing with _ | ⟨sOpt, eOpt⟩
  · simp [inTimingWindow] at h
  · rcases sOpt with _ | sOff
    · simp [inTimingWindow] at h
    · rcases eOpt with _ | eOff
      · simp [inTimingWindow] at h
      · simp only [inTimingWindow, Bool.and_eq_true, decide_eq_true_eq] at h
        exact ⟨⟨some sOff, some eOff⟩, sOff, eOff, rfl, rfl, rfl, h.1, h.2⟩

/-- C1: the banner selected for a playback time t is the first banner in
iteration order whose timing window (both offsets present) satisfies
startOffset <= t < endOffset; a banner without a complete timing window is
never selected; if no banner's window contains t, no banner is selected. -/
theorem C1_find_banner_for_time (t : ℚ) (bs : Banners) :
    (∀ k b, findBannerForTime t bs = (some k, some b) →
      (∃ pre post, bs = pre ++ (k, b) :: post ∧
        ∀ p ∈ pre, inTimingWindow t p.2 = false) ∧
      ∃ tw sOff eOff, b.timing = some tw ∧ tw.startOffset = some sOff ∧
        tw.endOffset = some eOff ∧ sOff ≤ t ∧ t < eOff) ∧
    ((∀ p ∈ bs, inTimingWindow t p.2 = false) →
      findBannerForTime t bs = (none, none)) := by
  constructor
  · intro k b h
    obtain ⟨pre, post, hsplit, hwin, hpre⟩ := findBannerForTime_first t bs k b h
    exact ⟨⟨pre, post, hsplit, hpre⟩, inTimingWindow_spec t b hwin⟩
  · exact findBannerForTime_eq_none t bs

theorem C1_find_banner_for_time_witness :
    (∃ pre post, ([("A", bannerA)] : Banners) = pre ++ ("A", bannerA) :: post ∧
      ∀ p ∈ pre, inTimingWindow 7 p.2 = false) ∧
    ∃ tw sOff eOff, bannerA.timing = some tw ∧ tw.startOffset = some sOff ∧
      tw.endOffset = some eOff ∧ sOff ≤ 7 ∧ (7 : ℚ) < eOff :=
  (C1_find_banner_for_time 7 [("A", bannerA)]).1 "A" bannerA (by decide)

/-- C10: getBannerData returns the banner stored under a present key;
with a null or absent key it returns the first banner in the collection;
it returns null exactly when the collection is empty. -/
theorem C10_get_banner_data (banners : Banners) (k : Option String) :
    (∀ key b, k = some key → key ≠ "" → banners.lookup key = some b →
      getBannerData banners k = some b) ∧
    (k = none → getBannerData banners k = banners.head?.map Prod.snd) ∧
    (∀ key, k = some key → banners.lookup key = none →
      getBannerData banners k = banners.head?.map Prod.snd) ∧
    (getBannerData banners k = none ↔ banners = []) := by
  refine ⟨?_, ?_, ?_, ?_⟩
  · intro key b hk hne hl
    subst hk
    simp [getBannerData, hne, hl]
  · intro hk
    subst hk
    rfl
  · intro key hk hl
    subst hk
    by_cases hne : key = "" <;> simp [getBannerData, hne, hl]
  · rcases banners with _ | ⟨⟨k0, b0⟩, rest⟩
    · rcases k with _ | key
      · simp [getBannerData]
      · by_cases hne : key = "" <;> simp [getBannerData, hne, List.lookup]
    · rcases k with _ | key
      · simp [getBannerData]
      · by_cases hne : key = ""
        · simp [getBannerData, hne]
        · rcases hl : (((k0, b0) :: rest : Banners).lookup key) with _ | b <;>
            simp [getBannerData, hne, hl]

theorem C10_get_banner_data_witness :
    getBannerData [("A", bannerA)] (some "A") = some bannerA :=
  (C10_get_banner_data [("A", bannerA)] (some "A")).1 "A" bannerA rfl
    (by decide) (by decide)

theorem avoVertical_not_horizontal (ty : Option String) (w h : ℚ)
    (hv : avoIsVertical ty w h = true) : avoIsHorizontal ty w h = false := by
  simp only [avoIsVertical, Bool.or_eq_true, Bool.and_eq_true, Bool.not_eq_true',
    decide_eq_true_eq, beq_iff_eq, beq_eq_false_iff_ne, ne_eq] at hv
  rcases hv with hv | ⟨hv1, hv2⟩
  · subst hv
    simp [avoIsHorizontal]
  · rcases ty with _ | s
    · simp [avoIsHorizontal, lt_asymm hv2]
    · have hsh : s ≠ "horizontal" := by
        intro hcon
        exact hv1 (by rw [hcon])
      simp [avoIsHorizontal, hsh, lt_asymm hv2]

theorem avoHorizontal_not_vertical (ty : Option String) (w h : ℚ)
    (hh : avoIsHorizontal ty w h = true) : avoIsVertical ty w h = false := by
  simp only [avoIsHorizontal, Bool.or_eq_true, Bool.and_eq_true, Bool.not_eq_true',
    decide_eq_true_eq, beq_iff_eq, beq_eq_false_iff_ne, ne_eq] at hh
  rcases hh with hh | ⟨hh1, hh2⟩
  · subst hh
    simp [avoIsVertical]
  · rcases ty with _ | s
    · simp [avoIsVertical, lt_asymm hh2]
    · have hsv : s ≠ "vertical" := by
        intro hcon
        exact hh1 (by rw [hcon])
      simp [avoIsVertical, hsv, lt_asymm hh2]

/-- C7: left/right mirror symmetry of the offset resolver: a
vertical-classified segment of width W classified left-edge yields
offsets.left = W and offsets.right = 0; classified right-edge and not
left-edge it yields offsets.right = W and offsets.left = 0. -/
theorem C7_vertical_mirror (shellWidth shellHeight x y w h : ℚ) (ty hint : Option String)
    (hw : 0 ≤ w) (hv : avoIsVertical ty w h = true) :
    (avoIsLeftEdge hint x = true →
      (applyVideoOffsets shellWidth shellHeight [singleSegment x y w h ty hint]).left = w ∧
      (applyVideoOffsets shellWidth shellHeight [singleSegment x y w h ty hint]).right = 0) ∧
    (avoIsRightEdge hint x w shellWidth = true → avoIsLeftEdge hint x = false →
      (applyVideoOffsets shellWidth shellHeight [singleSegment x y w h ty hint]).right = w ∧
      (applyVideoOffsets shellWidth shellHeight [singleSegment x y w h ty hint]).left = 0) := by
  have hh := avoVertical_not_horizontal ty w h hv
  constructor
  · intro hl
    simp [applyVideoOffsets, offsetStep, singleSegment, hv, hh, hl, max_eq_right hw]
  · intro _ hl
    simp [applyVideoOffsets, offsetStep, singleSegment, hv, hh, hl, max_eq_right hw]

theorem C7_vertical_mirror_witness :
    ((applyVideoOffsets 1280 720 [singleSegment 0 0 300 700 none none]).left = 300 ∧
      (applyVideoOffsets 1280 720 [singleSegment 0 0 300 700 none none]).right = 0) ∧
    ((applyVideoOffsets 1280 720 [singleSegment 980 0 300 700 none none]).right = 300 ∧
      (applyVideoOffsets 1280 720 [singleSegment 980 0 300 700 none none]).left = 0) :=
  ⟨(C7_vertical_mirror 1280 720 0 0 300 700 none none (by norm_num) (by decide)).1
      (by decide),
    (C7_vertical_mirror 1280 720 980 0 300 700 none none (by norm_num) (by decide)).2
      (by norm_num [avoIsRightEdge, avoIsLeftEdge]) (by norm_num [avoIsLeftEdge])⟩

/-- C6: a horizontal-classified absolute segment with no position hint at
y = 0 with height H yields offsets.top = H; in general a non-bottom
horizontal segment contributes its bottom edge y + height to the top
offset; at y = 600 with shellHeight = 700 it yields offsets.bottom = H
and offsets.top = 0. -/
theorem C6_horizontal_top_bottom (shellWidth shellHeight x y w h : ℚ) (ty : Option String)
    (hhz : avoIsHorizontal ty w h = true) (hh0 : 0 ≤ h) :
    (y = 0 → 0 ≤ shellHeight →
      (applyVideoOffsets shellWidth shellHeight [singleSegment x y w h ty none]).top = h) ∧
    (0 ≤ y → avoIsBottomSegment ty none y w h shellHeight = false →
      (applyVideoOffsets shellWidth shellHeight [singleSegment x y w h ty none]).top = y + h) ∧
    (y = 600 → shellHeight = 700 →
      (applyVideoOffsets shellWidth shellHeight [singleSegment x y w h ty none]).bottom = h ∧
      (applyVideoOffsets shellWidth shellHeight [singleSegment x y w h ty none]).top = 0) := by
  have hv := avoHorizontal_not_vertical ty w h hhz
  refine ⟨?_, ?_, ?_⟩
  · intro hy hsh
    subst hy
    have hb : avoIsBottomSegment ty none 0 w h shellHeight = false := by
      have : ¬((0 : ℚ) > shellHeight / 2) :=
        not_lt.mpr (div_nonneg hsh (by norm_num))
      simp [avoIsBottomSegment, this]
    simp [applyVideoOffsets, offsetStep, singleSegment, hhz, hv, hb,
      max_eq_right hh0]
  · intro hy hb
    simp [applyVideoOffsets, offsetStep, singleSegment, hhz, hv, hb,
      max_eq_right (add_nonneg hy hh0)]
  · intro hy hsh
    subst hy
    subst hsh
    have hb : avoIsBottomSegment ty none 600 w h 700 = true := by
      simp [avoIsBottomSegment, hhz]
      norm_num
    simp [applyVideoOffsets, offsetStep, singleSegment, hhz, hv, hb,
      max_eq_right hh0]

theorem C6_horizontal_top_bottom_witness :
    (applyVideoOffsets 1280 700 [singleSegment 0 0 1280 100 none none]).top = 100 ∧
    (applyVideoOffsets 1280 700 [singleSegment 0 600 1280 100 none none]).bottom = 100 ∧
    (applyVideoOffsets 1280 700 [singleSegment 0 600 1280 100 none none]).top = 0 :=
  ⟨(C6_horizontal_top_bottom 1280 700 0 0 1280 100 none (by decide) (by norm_num)).1
      rfl (by norm_num),
    (C6_horizontal_top_bottom 1280 700 0 600 1280 100 none (by decide) (by norm_num)).2.2
      rfl rfl⟩

/-- C4 counterexample: the square, type-unset, hint-free segment at the
origin contributes to no offset at all — the computed offset vector is
zero on all four edges, so the segment does not contribute to a
left-or-right offset nor to a top-or-bottom offset as the claim
states. -/
theorem C4_counterexample :
    applyVideoOffsets 1280 720 [squareSegment] =
      { left := 0, right := 0, top := 0, bottom := 0 } := by
  decide

/-- C4 amended: an absolute segment with type unset and height equal to
width satisfies neither the vertical nor the horizontal classification,
so it takes neither branch and leaves the offset vector unchanged. -/
theorem C4_square_no_contribution (shellWidth shellHeight x y w : ℚ) (i : String)
    (hint : Option String) (off : Offsets) :
    offsetStep shellWidth shellHeight off
      { id := i, x := some x, y := some y, width := w, height := w,
        type := none, position := hint } = off := by
  simp [offsetStep, avoIsVertical, avoIsHorizontal, lt_irrefl]

/-- C3 counterexample: with shellHeight = 700, a hint-free horizontal
segment at y = 360 is classified bottom by applyVideoOffsets (360 is
beyond half the shell height, 350) but not by positionSegment (360 is
below its fixed 400px threshold), so the two functions do not share the
bottom-classification rule the claim states. -/
theorem C3_counterexample :
    avoIsBottomSegment none none 360 600 100 700 = true ∧
    posIsBottomSegment none none 360 600 100 = false := by
  constructor <;>
    norm_num [avoIsBottomSegment, posIsBottomSegment, avoIsHorizontal, posIsHorizontal]

/-- C3 amended: positionSegment classifies left and right edges by
exactly the same rules as applyVideoOffsets, but classifies a horizontal
segment as bottom iff its hint is "bottom" or its y exceeds the fixed
400px threshold; that rule coincides with applyVideoOffsets' shellHeight
times 0.5 rule exactly when shellHeight = 800 (given that the two
functions' horizontal classifications agree on the segment). -/
theorem C3_edge_classification (ty hint : Option String) (x y w h shellWidth shellHeight : ℚ) :
    posIsLeftEdge hint x = avoIsLeftEdge hint x ∧
    posIsRightEdge hint x w shellWidth = avoIsRightEdge hint x w shellWidth ∧
    posIsBottomSegment ty hint y w h =
      (hint == some "bottom" || (posIsHorizontal ty w h && decide (y > 400))) ∧
    (shellHeight = 800 → posIsHorizontal ty w h = avoIsHorizontal ty w h →
      posIsBottomSegment ty hint y w h = avoIsBottomSegment ty hint y w h shellHeight) := by
  refine ⟨?_, ?_, rfl, ?_⟩
  · simp [posIsLeftEdge, avoIsLeftEdge, Bool.or_comm]
  · simp [posIsRightEdge, avoIsRightEdge, posIsLeftEdge, avoIsLeftEdge, Bool.or_comm]
  · intro hsh hcls
    subst hsh
    have h2 : (800 : ℚ) / 2 = 400 := by norm_num
    simp [posIsBottomSegment, avoIsBottomSegment, hcls, h2]

theorem C3_edge_classification_witness :
    posIsBottomSegment none none 500 600 100 =
      avoIsBottomSegment none none 500 600 100 800 :=
  (C3_edge_classification none none 0 500 600 100 1280 800).2.2.2 rfl (by decide)

/-- C2 counterexample: a pause event with SHOW_BANNERS_ON_PAUSE enabled,
arriving after a seeking event and before any seeked/cooldown, performs a
show-banner operation while the controller is still seeking — the pause
handler bypasses the isSeeking suppression. -/
theorem C2_counterexample :
    (runTiming cfgSingle initialTimingState
      [PlayerEvent.seeking, PlayerEvent.pause 2]).1.isSeeking = true ∧
    (runTiming cfgSingle initialTimingState
      [PlayerEvent.seeking, PlayerEvent.pause 2]).2 = [BannerOp.showOp "A"] := by
  decide

/-- C2 amended: while the controller is seeking (from the seeking event
until the seek cooldown fires), no event other than a pause (with
pause display enabled) performs a show-banner operation: seeking, seeked,
timeupdate, play and the play-resume timer all emit no show. -/
theorem C2_seeking_suppression (cfg : TimingConfig) (s : TimingState) (t : ℚ) (k : String)
    (hseek : s.isSeeking = true) :
    BannerOp.showOp k ∉ (stepTiming cfg s PlayerEvent.seeking).2 ∧
    BannerOp.showOp k ∉ (stepTiming cfg s PlayerEvent.seeked).2 ∧
    BannerOp.showOp k ∉ (stepTiming cfg s (PlayerEvent.timeupdate t)).2 ∧
    BannerOp.showOp k ∉ (stepTiming cfg s PlayerEvent.play).2 ∧
    BannerOp.showOp k ∉ (stepTiming cfg s (PlayerEvent.playDelayFire t)).2 := by
  refine ⟨?_, ?_, ?_, ?_, ?_⟩
  · simp only [stepTiming]
    split <;> simp
  · simp [stepTiming]
  · simp [stepTiming, hseek]
  · simp only [stepTiming]
    split <;> simp
  · simp [stepTiming, hseek]

theorem C2_seeking_suppression_witness :
    BannerOp.showOp "A" ∉
      (stepTiming cfgSingle { initialTimingState with isSeeking := true }
        PlayerEvent.seeking).2 ∧
    BannerOp.showOp "A" ∉
      (stepTiming cfgSingle { initialTimingState with isSeeking := true }
        PlayerEvent.seeked).2 ∧
    BannerOp.showOp "A" ∉
      (stepTiming cfgSingle { initialTimingState with isSeeking := true }
        (PlayerEvent.timeupdate 7)).2 ∧
    BannerOp.showOp "A" ∉
      (stepTiming cfgSingle { initialTimingState with isSeeking := true }
        PlayerEvent.play).2 ∧
    BannerOp.showOp "A" ∉
      (stepTiming cfgSingle { initialTimingState with isSeeking := true }
        (PlayerEvent.playDelayFire 7)).2 :=
  C2_seeking_suppression cfgSingle { initialTimingState with isSeeking := true } 7 "A" rfl

/-- C5 counterexample: with banners A (window 5-10) and B (window 10-20),
after a timeupdate at t = 12 banner B is the most recently shown banner
(currentBannerKey = "B"); a pause at t = 25 matches no window and shows
banner A — the first banner in the collection — not the most recently
shown banner B. -/
theorem C5_counterexample :
    (runTiming cfgPair initialTimingState
      [PlayerEvent.timeupdate 12]).1.currentBannerKey = some "B" ∧
    (runTiming cfgPair initialTimingState
      [PlayerEvent.timeupdate 12, PlayerEvent.pause 25]).2 =
      [BannerOp.showOp "B", BannerOp.showOp "A"] := by
  decide

/-- C5 amended: on a pause event with pause display enabled, the banner
shown is the time-matching banner for the pause instant if one exists,
and otherwise the first banner in the collection; in either case the
show operation is performed unconditionally, for every controller state,
including states whose currentBannerKey already equals the chosen key. -/
theorem C5_pause_banner_choice (cfg : TimingConfig) (s : TimingState) (t : ℚ)
    (hp : cfg.showBannersOnPause = true) :
    (∀ k b, getBannerForTime cfg.banners t = some (k, b) →
      (stepTiming cfg s (PlayerEvent.pause t)).2 = [BannerOp.showOp k]) ∧
    (∀ k0 b0 rest, getBannerForTime cfg.banners t = none →
      cfg.banners = (k0, b0) :: rest →
      (stepTiming cfg s (PlayerEvent.pause t)).2 = [BannerOp.showOp k0]) := by
  constructor
  · intro k b hfind
    simp [stepTiming, hp, hfind]
  · intro k0 b0 rest hfind hbs
    rw [hbs] at hfind
    simp [stepTiming, hp, hbs, hfind, getBannerData, List.find?]

theorem C5_pause_banner_choice_witness :
    (stepTiming cfgPair
      { initialTimingState with currentBannerKey := some "B" }
      (PlayerEvent.pause 12)).2 = [BannerOp.showOp "B"] ∧
    (stepTiming cfgPair
      { initialTimingState with currentBannerKey := some "B" }
      (PlayerEvent.pause 25)).2 = [BannerOp.showOp "A"] :=
  ⟨(C5_pause_banner_choice cfgPair
      { initialTimingState with currentBannerKey := some "B" } 12 rfl).1
      "B" bannerB (by decide),
    (C5_pause_banner_choice cfgPair
      { initialTimingState with currentBannerKey := some "B" } 25 rfl).2
      "A" bannerA [("B", bannerB)] (by decide) rfl⟩

/-- C8: teardown after render resets the DOM state completely: the banner
host has zero children, all four offset custom properties are back at
0px, the close button is removed and the resize/fullscreen listeners are
detached — for both the immediate and the animated teardown (the latter
observed once its exit-animation timer has run). -/
theorem C8_render_teardown_roundtrip (shellWidth shellHeight : ℚ) (b : Banner)
    (s : DomState) (immediate : Bool) :
    settleCleanup (cleanupExisting immediate (renderBanner shellWidth shellHeight b s)) =
      { hostChildren := [], leftWidth := 0, rightWidth := 0, topHeight := 0,
        bottomHeight := 0, resizeListeners := false, closeButton := false } := by
  cases immediate
  · by_cases hc : (renderBanner shellWidth shellHeight b s).hostChildren = [] <;>
      simp [cleanupExisting, settleCleanup, hc]
  · simp [cleanupExisting, settleCleanup]

/-- C9 counterexample: an initialization that fetches zero banners while
a prior banner is already in the live collection does not fail — the
emptiness check is on the merged collection, not on what the
Configuration Source yielded. -/
theorem C9_counterexample :
    initLBanner [("A", bannerA)] [] = Except.ok [("A", bannerA)] := rfl

/-- C9 amended: initLBanner fails fatally (throwing, so the banner timing
system is never installed) exactly when the merged live collection is
empty — in particular on a first initialization (empty prior collection)
with zero parsed banners; a content element whose segmentId is absent
from its banner's layout is skipped and exactly the remaining resolvable
elements are rendered, in order. -/
theorem C9_zero_banners_and_missing_segments (prior fetched : Banners) (layout : Layout)
    (elements : List Element) :
    ((∃ msg, initLBanner prior fetched = Except.error msg) ↔
      (prior = [] ∧ fetched = [])) ∧
    renderChildren layout elements =
      elements.filter (fun e => layout.segments.any (fun seg => seg.id == e.segmentId)) ∧
    (∀ e, e ∈ renderChildren layout elements ↔
      (e ∈ elements ∧ ∃ seg ∈ layout.segments, seg.id = e.segmentId)) := by
  have hmerged : mergeBanners prior fetched = [] ↔ (prior = [] ∧ fetched = []) := by
    constructor
    · intro hm
      unfold mergeBanners at hm
      rcases List.append_eq_nil.mp hm with ⟨h1, h2⟩
      have hp : prior = [] := List.map_eq_nil_iff.mp h1
      subst hp
      simp at h2
      exact ⟨rfl, h2⟩
    · rintro ⟨hp, hf⟩
      subst hp
      subst hf
      rfl
  have hfold : ∀ (els acc : List Element),
      els.foldl
        (fun acc e =>
          if layout.segments.any (fun seg => seg.id == e.segmentId) then acc ++ [e]
          else acc) acc =
        acc ++ els.filter (fun e => layout.segments.any (fun seg => seg.id == e.segmentId)) := by
    intro els
    induction els with
    | nil => intro acc; simp
    | cons e rest ih =>
      intro acc
      rw [List.foldl_cons, List.filter_cons]
      by_cases hp : (layout.segments.any fun seg => seg.id == e.segmentId) = true
      · rw [if_pos hp, if_pos hp, ih, List.append_assoc, List.singleton_append]
      · rw [if_neg hp, if_neg hp, ih]
  refine ⟨?_, ?_, ?_⟩
  · constructor
    · rintro ⟨msg, hmsg⟩
      unfold initLBanner at hmsg
      by_cases he : (mergeBanners prior fetched).isEmpty = true
      · exact hmerged.mp (List.isEmpty_iff.mp he)
      · rw [if_neg he] at hmsg
        exact absurd hmsg (by simp)
    · intro hpf
      refine ⟨"No valid banners found in VAST XML", ?_⟩
      unfold initLBanner
      rw [if_pos (List.isEmpty_iff.mpr (hmerged.mpr hpf))]
  · exact hfold elements []
  · intro e
    rw [show renderChildren layout elements = _ from hfold elements []]
    simp [List.mem_filter, List.any_eq_true]

theorem C9_zero_banners_and_missing_segments_witness :
    ∃ msg, initLBanner ([] : Banners) [] = Except.error msg :=
  ((C9_zero_banners_and_missing_segments [] []
      { position := none, segments := [] } []).1).mpr ⟨rfl, rfl⟩
